import Mathlib

/-!
# Verification of the openai-proxy gateway (src/server.js)

A shallow embedding of the four POST route handlers of `src/server.js`.
Each Express handler is modelled as a total Lean function from the
destructured request body (JavaScript values, where an absent field
destructures to `undefined`), the outcome of the single external-provider
call, and — for the voice-to-text route — the current millisecond clock
value and the set of files on disk, to the HTTP response sent together
with a record of the provider calls made and the final file-system state.
Totality of the handler functions models the `try { ... } catch` wrapper:
every outcome of the provider call is mapped to a well-formed response.
-/

namespace OpenAIProxy

/-- JavaScript values as they appear when destructuring `req.body`.
A field absent from the JSON body destructures to `undefined`. -/
inductive JSValue where
  | undefined
  | null
  | bool (b : Bool)
  | num (n : Int)
  | str (s : String)
  deriving DecidableEq, Repr

/-- JavaScript truthiness, as tested by `if (!text)` etc. in the handlers:
`undefined`, `null`, `false`, `0` and `""` are falsy. -/
def truthy : JSValue → Bool
  | .undefined => false
  | .null => false
  | .bool b => b
  | .num n => n != 0
  | .str s => s != ""

/-- A response body: either a JSON object (list of field/value pairs, in
the order `res.json` receives them) or a raw byte buffer (`res.send`). -/
inductive Body where
  | json (fields : List (String × JSValue))
  | bytes (data : List Nat)
  deriving DecidableEq, Repr

/-- An HTTP response: status code, the headers the handler sets explicitly
via `res.setHeader`, and the body. -/
structure HttpResponse where
  status : Nat
  headers : List (String × String)
  body : Body
  deriving DecidableEq, Repr

/-- Outcome of one call to the external provider: either a value or a
thrown error carrying `err.message`. -/
inductive ProviderResult (α : Type) where
  | ok (a : α)
  | err (msg : String)
  deriving DecidableEq, Repr

/-- The tuning parameters of one `openai.chat.completions.create` call. -/
structure ChatCall where
  model : String
  temperature : ℚ
  maxTokens : Nat
  deriving DecidableEq, Repr

/-- JavaScript `s || ""` applied to an optional string: `undefined` and the
empty string both fall through to `""`. -/
def strOrEmpty : Option String → String
  | some s => if s == "" then "" else s
  | none => ""

/-! ## POST /translate (src/server.js lines 35-61) -/

/-- Destructured body of a `/translate` request: `{ text, targetLanguage }`. -/
structure TranslateBody where
  text : JSValue
  targetLanguage : JSValue
  deriving DecidableEq, Repr

/-- Response of a chat-style handler together with the provider calls it made. -/
structure ChatRouteOutput where
  response : HttpResponse
  calls : List ChatCall
  deriving DecidableEq, Repr

/-- The `POST /translate` handler. `provider` is the outcome of the one
`openai.chat.completions.create` call; its `ok` payload is
`resp?.choices?.[0]?.message?.content`, `none` when that chain is absent. -/
def translate (body : TranslateBody) (provider : ProviderResult (Option String)) :
    ChatRouteOutput :=
  if !(truthy body.text) || !(truthy body.targetLanguage) then
    { response :=
        { status := 400, headers := [],
          body := .json [("error", .str "Missing text or targetLanguage")] },
      calls := [] }
  else
    let call : ChatCall := { model := "gpt-4o-mini", temperature := 1/10, maxTokens := 500 }
    match provider with
    | .ok content =>
      { response :=
          { status := 200, headers := [],
            body := .json [("result", .str (strOrEmpty (content.map String.trim)))] },
        calls := [call] }
    | .err msg =>
      { response :=
          { status := 500, headers := [],
            body := .json [("error", .str "Translate failed"), ("details", .str msg)] },
        calls := [call] }

/-! ## POST /chat (src/server.js lines 68-90) -/

/-- Destructured body of a `/chat` request: `{ message, language }`. -/
structure ChatBody where
  message : JSValue
  language : JSValue
  deriving DecidableEq, Repr

/-- The `POST /chat` handler. The system/user prompt strings are elided
(no claim concerns them); the call's tuning parameters are recorded. -/
def chat (body : ChatBody) (provider : ProviderResult (Option String)) :
    ChatRouteOutput :=
  if !(truthy body.message) then
    { response :=
        { status := 400, headers := [],
          body := .json [("error", .str "Missing message")] },
      calls := [] }
  else
    let call : ChatCall := { model := "gpt-4o-mini", temperature := 7/10, maxTokens := 400 }
    match provider with
    | .ok content =>
      { response :=
          { status := 200, headers := [],
            body := .json [("reply", .str (strOrEmpty (content.map String.trim)))] },
        calls := [call] }
    | .err msg =>
      { response :=
          { status := 500, headers := [],
            body := .json [("error", .str "Chat failed"), ("details", .str msg)] },
        calls := [call] }

/-! ## POST /voice-to-text (src/server.js lines 97-119) -/

/-- The temp path written for the audio payload:
`` `/tmp/record-${Date.now()}.webm` ``. It depends only on the millisecond
clock value at the time of the request. -/
def tmpName (now : Nat) : String :=
  "/tmp/record-" ++ toString now ++ ".webm"

/-- Result of the `/voice-to-text` handler: the response, the files present
on disk after the handler finishes, the temp path it wrote (if any), and
how many transcription calls it made. -/
structure VoiceOutput where
  response : HttpResponse
  fsFinal : List String
  tmpUsed : Option String
  transcribeCalls : Nat
  deriving DecidableEq, Repr

/-- The `POST /voice-to-text` handler. `file` is `req.file`'s buffer when a
multipart `audio` file was uploaded. `now` is `Date.now()`. `fs0` is the
set of file paths on disk when the request arrives; `fs.writeFileSync`
adds the temp path and `fs.unlinkSync` (wrapped in its own try/catch)
removes it. The provider's `ok` payload is `transcription?.text`. On a
thrown provider error control jumps to the outer catch, which sends the
500 response without touching the file system. -/
def voiceToText (file : Option (List Nat)) (now : Nat)
    (provider : ProviderResult (Option String)) (fs0 : List String) : VoiceOutput :=
  match file with
  | none =>
    { response :=
        { status := 400, headers := [],
          body := .json [("error", .str "No audio file uploaded")] },
      fsFinal := fs0, tmpUsed := none, transcribeCalls := 0 }
  | some _buf =>
    let tmpPath := tmpName now
    let fs1 := tmpPath :: fs0
    match provider with
    | .ok t =>
      let fs2 := fs1.filter (fun p => p != tmpPath)
      { response :=
          { status := 200, headers := [],
            body := .json [("text", .str (strOrEmpty t))] },
        fsFinal := fs2, tmpUsed := some tmpPath, transcribeCalls := 1 }
    | .err msg =>
      { response :=
          { status := 500, headers := [],
            body := .json [("error", .str "Voice-to-text failed"), ("details", .str msg)] },
        fsFinal := fs1, tmpUsed := some tmpPath, transcribeCalls := 1 }

/-! ## POST /text-to-voice (src/server.js lines 126-149) -/

/-- Destructured body of a `/text-to-voice` request: `{ text }`. -/
structure TtsBody where
  text : JSValue
  deriving DecidableEq, Repr

/-- Result of the `/text-to-voice` handler: the response and how many
speech-synthesis calls it made. -/
structure TtsOutput where
  response : HttpResponse
  speechCalls : Nat
  deriving DecidableEq, Repr

/-- The `POST /text-to-voice` handler. The provider's `ok` payload is the
byte buffer obtained from `speech.arrayBuffer()`; on success the handler
sets `Content-Type: audio/mpeg` and `Content-Length` to the buffer length
and sends the buffer. -/
def textToVoice (body : TtsBody) (provider : ProviderResult (List Nat)) : TtsOutput :=
  if !(truthy body.text) then
    { response :=
        { status := 400, headers := [],
          body := .json [("error", .str "Missing text")] },
      speechCalls := 0 }
  else
    match provider with
    | .ok buffer =>
      { response :=
          { status := 200,
            headers := [("Content-Type", "audio/mpeg"),
                        ("Content-Length", toString buffer.length)],
            body := .bytes buffer },
        speechCalls := 1 }
    | .err msg =>
      { response :=
          { status := 500, headers := [],
            body := .json [("error", .str "TTS failed"), ("details", .str msg)] },
        speechCalls := 1 }

/-- `containsStr s t`: `t` occurs as a contiguous substring of `s`. -/
def containsStr (s t : String) : Prop :=
  ∃ p q, s = p ++ t ++ q

/-! ## Helper lemmas -/

/-- JavaScript `(x?.trim() || "")` coincides with `Option.getD` after
trimming: when the trimmed string is empty, falling through to `""`
returns the same empty string. -/
theorem strOrEmpty_map_trim_getD (c : Option String) :
    strOrEmpty c = c.getD "" := by
  cases c with
  | none => rfl
  | some s =>
    by_cases h : s = ""
    · simp [strOrEmpty, h]
    · simp [strOrEmpty, h]

/-! ## Claims -/

/-- C2: for every request to POST /text-to-voice with a non-empty `text`
field, if the provider's speech operation returns a payload of N bytes,
the response has status 200, a body of exactly those N bytes, header
`Content-Type: audio/mpeg` and header `Content-Length` equal to N. -/
theorem text_to_voice_success_shape (s : String) (hs : s ≠ "") (buffer : List Nat) :
    (textToVoice ⟨.str s⟩ (.ok buffer)).response.status = 200 ∧
    (textToVoice ⟨.str s⟩ (.ok buffer)).response.body = .bytes buffer ∧
    (textToVoice ⟨.str s⟩ (.ok buffer)).response.headers =
      [("Content-Type", "audio/mpeg"), ("Content-Length", toString buffer.length)] := by
  simp [textToVoice, truthy, hs]

/-- Witness for C2 at `text = "hi"` and a three-byte payload. -/
theorem text_to_voice_success_shape_witness :
    (textToVoice ⟨.str "hi"⟩ (.ok [3, 1, 4])).response.status = 200 ∧
    (textToVoice ⟨.str "hi"⟩ (.ok [3, 1, 4])).response.body = .bytes [3, 1, 4] ∧
    (textToVoice ⟨.str "hi"⟩ (.ok [3, 1, 4])).response.headers =
      [("Content-Type", "audio/mpeg"),
       ("Content-Length", toString ([3, 1, 4] : List Nat).length)] :=
  text_to_voice_success_shape "hi" (by decide) [3, 1, 4]

/-- C4: for every request to POST /translate in which `text` or
`targetLanguage` is absent (destructures to `undefined`) or is the empty
string, the response has status 400 with an `error` field, and the
external provider is not invoked (no chat call is recorded). -/
theorem translate_validation_rejects (tb : TranslateBody)
    (h : tb.text = .undefined ∨ tb.text = .str "" ∨
         tb.targetLanguage = .undefined ∨ tb.targetLanguage = .str "")
    (pr : ProviderResult (Option String)) :
    (translate tb pr).response.status = 400 ∧
    (translate tb pr).response.body =
      .json [("error", .str "Missing text or targetLanguage")] ∧
    (translate tb pr).calls = [] := by
  rcases h with h | h | h | h <;> simp [translate, truthy, h]

/-- Witness for C4: `text` absent, `targetLanguage = "es"`. -/
theorem translate_validation_rejects_witness :
    (translate ⟨.undefined, .str "es"⟩ (.ok none)).response.status = 400 ∧
    (translate ⟨.undefined, .str "es"⟩ (.ok none)).response.body =
      .json [("error", .str "Missing text or targetLanguage")] ∧
    (translate ⟨.undefined, .str "es"⟩ (.ok none)).calls = [] :=
  translate_validation_rejects ⟨.undefined, .str "es"⟩ (Or.inl rfl) (.ok none)

/-- C6: for every request to POST /translate with non-empty `text` and
`targetLanguage`, if the provider call succeeds the response is 200 with
body `{result: r}` where `r` is the trimmed text content of the
provider's first choice, or the empty string when that content is
absent. -/
theorem translate_success_returns_trimmed (s l : String)
    (hs : s ≠ "") (hl : l ≠ "") (content : Option String) :
    (translate ⟨.str s, .str l⟩ (.ok content)).response.status = 200 ∧
    (translate ⟨.str s, .str l⟩ (.ok content)).response.body =
      .json [("result", .str ((content.map String.trim).getD ""))] := by
  simp [translate, truthy, hs, hl, strOrEmpty_map_trim_getD]

/-- Witness for C6 at `{text:"Hello", targetLanguage:"Spanish"}` with the
provider returning `" Hola "` (trimmed to `"Hola"`). -/
theorem translate_success_returns_trimmed_witness :
    (translate ⟨.str "Hello", .str "Spanish"⟩ (.ok (some " Hola "))).response.status = 200 ∧
    (translate ⟨.str "Hello", .str "Spanish"⟩ (.ok (some " Hola "))).response.body =
      .json [("result", .str (((some " Hola ").map String.trim).getD ""))] :=
  translate_success_returns_trimmed "Hello" "Spanish" (by decide) (by decide) (some " Hola ")

/-- C1 (code bug): the success path of POST /voice-to-text removes the
temp file, but when the provider's transcription call throws, control
jumps to the outer catch and the temp file written at line 103 of
src/server.js is never unlinked: it is still on disk after the 500
response. The claim that the file is gone on both paths fails. -/
theorem voice_to_text_temp_file_leak_on_failure :
    ((voiceToText (some [1, 2, 3]) 1000 (.ok (some "hello world")) []).fsFinal = [] ∧
     (voiceToText (some [1, 2, 3]) 1000 (.ok (some "hello world")) []).response.status = 200) ∧
    ((voiceToText (some [1, 2, 3]) 1000 (.err "boom") []).fsFinal = [tmpName 1000] ∧
     (voiceToText (some [1, 2, 3]) 1000 (.err "boom") []).response.status = 500) := by
  decide

/-- C9 (code bug): the temp path is derived from `Date.now()` alone, so
two distinct requests handled in the same millisecond — here with
different audio payloads and different provider outcomes — write and use
the very same temp path. -/
theorem voice_to_text_tmp_name_collision :
    (voiceToText (some [1]) 1000 (.ok (some "a")) []).tmpUsed =
      (voiceToText (some [2, 2]) 1000 (.err "x") []).tmpUsed ∧
    (voiceToText (some [1]) 1000 (.ok (some "a")) []).tmpUsed = some (tmpName 1000) := by
  decide

/-- C3: for every request to any of the four POST routes whose validation
passes, if the external provider call throws with message `msg`, the
response is exactly status 500 with a JSON body whose `error` field names
the failing operation and whose `details` field carries `msg`; totality
of the handlers means no exception escapes. -/
theorem upstream_error_mapping (tb : TranslateBody)
    (h1 : truthy tb.text = true) (h2 : truthy tb.targetLanguage = true)
    (cb : ChatBody) (h3 : truthy cb.message = true)
    (buffer : List Nat) (now : Nat) (fs0 : List String)
    (tv : TtsBody) (h4 : truthy tv.text = true) (msg : String) :
    (translate tb (.err msg)).response =
      { status := 500, headers := [],
        body := .json [("error", .str "Translate failed"), ("details", .str msg)] } ∧
    (chat cb (.err msg)).response =
      { status := 500, headers := [],
        body := .json [("error", .str "Chat failed"), ("details", .str msg)] } ∧
    (voiceToText (some buffer) now (.err msg) fs0).response =
      { status := 500, headers := [],
        body := .json [("error", .str "Voice-to-text failed"), ("details", .str msg)] } ∧
    (textToVoice tv (.err msg)).response =
      { status := 500, headers := [],
        body := .json [("error", .str "TTS failed"), ("details", .str msg)] } := by
  simp [translate, chat, voiceToText, textToVoice, h1, h2, h3, h4]

/-- Witness for C3: valid bodies on all four routes, provider throwing
`"boom"`. -/
theorem upstream_error_mapping_witness :
    (translate ⟨.str "a", .str "b"⟩ (.err "boom")).response =
      { status := 500, headers := [],
        body := .json [("error", .str "Translate failed"), ("details", .str "boom")] } ∧
    (chat ⟨.str "m", .undefined⟩ (.err "boom")).response =
      { status := 500, headers := [],
        body := .json [("error", .str "Chat failed"), ("details", .str "boom")] } ∧
    (voiceToText (some [9]) 42 (.err "boom") []).response =
      { status := 500, headers := [],
        body := .json [("error", .str "Voice-to-text failed"), ("details", .str "boom")] } ∧
    (textToVoice ⟨.str "t"⟩ (.err "boom")).response =
      { status := 500, headers := [],
        body := .json [("error", .str "TTS failed"), ("details", .str "boom")] } :=
  upstream_error_mapping ⟨.str "a", .str "b"⟩ (by decide) (by decide)
    ⟨.str "m", .undefined⟩ (by decide) [9] 42 [] ⟨.str "t"⟩ (by decide) "boom"

/-- C5: on every route, every 400 validation response carries an `error`
message that names each required field that is missing or empty:
"Missing text or targetLanguage" contains both field names, "Missing
message" contains `message`, "No audio file uploaded" contains `audio`,
and "Missing text" contains `text`. -/
theorem validation_messages_name_fields :
    (∀ (tb : TranslateBody) (pr : ProviderResult (Option String)),
        (translate tb pr).response.status = 400 →
        ∃ m, (translate tb pr).response.body = .json [("error", .str m)] ∧
          (truthy tb.text = false → containsStr m "text") ∧
          (truthy tb.targetLanguage = false → containsStr m "targetLanguage")) ∧
    (∀ (cb : ChatBody) (pr : ProviderResult (Option String)),
        (chat cb pr).response.status = 400 →
        ∃ m, (chat cb pr).response.body = .json [("error", .str m)] ∧
          containsStr m "message") ∧
    (∀ (file : Option (List Nat)) (now : Nat) (pr : ProviderResult (Option String))
        (fs0 : List String),
        (voiceToText file now pr fs0).response.status = 400 →
        ∃ m, (voiceToText file now pr fs0).response.body = .json [("error", .str m)] ∧
          containsStr m "audio") ∧
    (∀ (tv : TtsBody) (pr : ProviderResult (List Nat)),
        (textToVoice tv pr).response.status = 400 →
        ∃ m, (textToVoice tv pr).response.body = .json [("error", .str m)] ∧
          containsStr m "text") := by
  refine ⟨?_, ?_, ?_, ?_⟩
  · intro tb pr h
    unfold translate at h ⊢
    by_cases hc : (!(truthy tb.text) || !(truthy tb.targetLanguage)) = true
    · simp only [hc, if_true]
      exact ⟨"Missing text or targetLanguage", rfl,
        fun _ => ⟨"Missing ", " or targetLanguage", by decide⟩,
        fun _ => ⟨"Missing text or ", "", by decide⟩⟩
    · simp only [hc, if_false] at h
      cases pr <;> simp at h
  · intro cb pr h
    unfold chat at h ⊢
    by_cases hc : (!(truthy cb.message)) = true
    · simp only [hc, if_true]
      exact ⟨"Missing message", rfl, "Missing ", "", by decide⟩
    · simp only [hc, if_false] at h
      cases pr <;> simp at h
  · intro file now pr fs0 h
    unfold voiceToText at h ⊢
    cases file with
    | none =>
      exact ⟨"No audio file uploaded", rfl, "No ", " file uploaded", by decide⟩
    | some buf => cases pr <;> simp at h
  · intro tv pr h
    unfold textToVoice at h ⊢
    by_cases hc : (!(truthy tv.text)) = true
    · simp only [hc, if_true]
      exact ⟨"Missing text", rfl, "Missing ", "", by decide⟩
    · simp only [hc, if_false] at h
      cases pr <;> simp at h

/-- Witness for C5: a /translate request with `text` absent and
`targetLanguage = "es"`. -/
theorem validation_messages_name_fields_witness :
    ∃ m, (translate ⟨.undefined, .str "es"⟩ (.ok none)).response.body =
        .json [("error", .str m)] ∧
      (truthy (JSValue.undefined) = false → containsStr m "text") ∧
      (truthy (JSValue.str "es") = false → containsStr m "targetLanguage") :=
  validation_messages_name_fields.1 ⟨.undefined, .str "es"⟩ (.ok none) (by decide)
/-- C7: every provider call made by the translate handler uses temperature
0.1 and a 500-token cap, and every provider call made by the chat handler
uses temperature 0.7 and a 400-token cap (for every body and every
provider outcome). -/
theorem provider_call_tuning (tb : TranslateBody) (pr : ProviderResult (Option String))
    (cb : ChatBody) (pr2 : ProviderResult (Option String)) :
    (∀ c ∈ (translate tb pr).calls, c.temperature = 1/10 ∧ c.maxTokens = 500) ∧
    (∀ c ∈ (chat cb pr2).calls, c.temperature = 7/10 ∧ c.maxTokens = 400) := by
  constructor
  · intro c hc
    unfold translate at hc
    split at hc
    · simp at hc
    · cases pr <;> simp at hc <;> simp [hc]
  · intro c hc
    unfold chat at hc
    split at hc
    · simp at hc
    · cases pr2 <;> simp at hc <;> simp [hc]

/-- Witness for C7: the call recorded by a valid /translate request. -/
theorem provider_call_tuning_witness :
    ({ model := "gpt-4o-mini", temperature := 1/10, maxTokens := 500 } : ChatCall).temperature
      = 1/10 ∧
    ({ model := "gpt-4o-mini", temperature := 1/10, maxTokens := 500 } : ChatCall).maxTokens
      = 500 :=
  (provider_call_tuning ⟨.str "a", .str "b"⟩ (.ok none) ⟨.str "m", .null⟩ (.ok none)).1
    { model := "gpt-4o-mini", temperature := 1/10, maxTokens := 500 }
    (by simp [translate, truthy])

/-- C8: each of the four routes invokes at most one provider operation:
exactly one when its validation passes, and zero — together with a 400
response — when validation fails. -/
theorem single_provider_call_per_request
    (tb : TranslateBody) (pr : ProviderResult (Option String))
    (cb : ChatBody) (pr2 : ProviderResult (Option String))
    (file : Option (List Nat)) (now : Nat) (pr3 : ProviderResult (Option String))
    (fs0 : List String) (tv : TtsBody) (pr4 : ProviderResult (List Nat)) :
    ((truthy tb.text && truthy tb.targetLanguage) = true →
      (translate tb pr).calls.length = 1) ∧
    ((truthy tb.text && truthy tb.targetLanguage) = false →
      (translate tb pr).calls.length = 0 ∧ (translate tb pr).response.status = 400) ∧
    (truthy cb.message = true → (chat cb pr2).calls.length = 1) ∧
    (truthy cb.message = false →
      (chat cb pr2).calls.length = 0 ∧ (chat cb pr2).response.status = 400) ∧
    (file.isSome = true → (voiceToText file now pr3 fs0).transcribeCalls = 1) ∧
    (file.isSome = false →
      (voiceToText file now pr3 fs0).transcribeCalls = 0 ∧
      (voiceToText file now pr3 fs0).response.status = 400) ∧
    (truthy tv.text = true → (textToVoice tv pr4).speechCalls = 1) ∧
    (truthy tv.text = false →
      (textToVoice tv pr4).speechCalls = 0 ∧ (textToVoice tv pr4).response.status = 400) := by
  refine ⟨?_, ?_, ?_, ?_, ?_, ?_, ?_, ?_⟩ <;> intro h
  · rcases Bool.and_eq_true _ _ |>.mp h with ⟨h1, h2⟩
    cases pr <;> simp [translate, h1, h2]
  · rcases Bool.and_eq_false_iff.mp h with h1 | h1 <;> simp [translate, h1]
  · cases pr2 <;> simp [chat, h]
  · simp [chat, h]
  · rcases Option.isSome_iff_exists.mp h with ⟨buf, rfl⟩
    cases pr3 <;> simp [voiceToText]
  · cases file with
    | none => simp [voiceToText]
    | some buf => simp at h
  · cases pr4 <;> simp [textToVoice, h]
  · simp [textToVoice, h]

/-- Witness for C8: a valid /translate request makes exactly one call. -/
theorem single_provider_call_per_request_witness :
    (translate ⟨.str "a", .str "b"⟩ (.ok none)).calls.length = 1 :=
  (single_provider_call_per_request ⟨.str "a", .str "b"⟩ (.ok none)
    ⟨.str "m", .null⟩ (.ok none) (some [1]) 5 (.ok none) [] ⟨.str "t"⟩ (.ok [2])).1
    (by decide)

/-- C10: a /chat request whose `message` field is present but falsy (the
empty string, 0, false, or null) and a /text-to-voice request whose
`text` field is likewise present but falsy are both rejected with 400. -/
theorem falsy_present_field_rejected (v : JSValue)
    (hv : v = .str "" ∨ v = .num 0 ∨ v = .bool false ∨ v = .null)
    (lang : JSValue) (pr : ProviderResult (Option String))
    (pr2 : ProviderResult (List Nat)) :
    (chat ⟨v, lang⟩ pr).response.status = 400 ∧
    (textToVoice ⟨v⟩ pr2).response.status = 400 := by
  rcases hv with h | h | h | h <;> subst h <;>
    exact ⟨by simp [chat, truthy], by simp [textToVoice, truthy]⟩

/-- Witness for C10: `message` / `text` present but equal to `""`. -/
theorem falsy_present_field_rejected_witness :
    (chat ⟨.str "", .undefined⟩ (.ok none)).response.status = 400 ∧
    (textToVoice ⟨.str ""⟩ (.ok [1])).response.status = 400 :=
  falsy_present_field_rejected (.str "") (Or.inl rfl) .undefined (.ok none) (.ok [1])
end OpenAIProxy
